import Mathlib

/-!
Verification of the prom-io/sia-fork gateway and renter stream buffer.

The definitions below are a shallow embedding of the Go sources:
  - the gateway API surface and blacklist logic of the gateway package
    (src/unnamed/part_001), and
  - the renter stream buffer (src/modules/renter/streambuffer.go).

Go `uint64` arithmetic is modelled on `Nat` with an explicit reduction
modulo 2 ^ 64 at every operation that can wrap (`w64`, `sub64`); `int64`
values are modelled as `Int` with explicit range hypotheses in theorems.
Code of the repository that is only referenced here (the siasync
ThreadGroup, the persist layer, `modules.NetAddress.Host`, the ratelimit
package, the per-stream LRU implementation) is modelled from the spec and
marked as such; calls into it are recorded in explicit event fields
(`closedSessions`, `saveCount`, `lruUpdates`) so that theorems can speak
about them.
-/

set_option linter.unusedVariables false

namespace SiaFork

/-! ### Machine integer helpers -/

/-- Reduction of a `Nat` into the `uint64` value range; every Go `uint64`
operation result is passed through this. -/
def w64 (x : Nat) : Nat := x % 2 ^ 64

/-- Go `uint64` subtraction `a - b` (two's complement wraparound) for
`a b < 2 ^ 64`. -/
def sub64 (a b : Nat) : Nat := (a + 2 ^ 64 - b) % 2 ^ 64

/-- Reinterpretation of a `uint64` value as Go `int64`, as in the source's
`int64(s.offset)` conversions. -/
def toInt64 (n : Nat) : Int :=
  if n % 2 ^ 64 < 2 ^ 63 then ((n % 2 ^ 64 : Nat) : Int)
  else ((n % 2 ^ 64 : Nat) : Int) - 2 ^ 64

theorem w64_id {x : Nat} (h : x < 2 ^ 64) : w64 x = x := Nat.mod_eq_of_lt h

theorem sub64_eq {a b : Nat} (hba : b ≤ a) (ha : a < 2 ^ 64) : sub64 a b = a - b := by
  unfold sub64
  have h1 : a + 2 ^ 64 - b = (a - b) + 2 ^ 64 := by omega
  rw [h1, Nat.add_mod_right]
  exact Nat.mod_eq_of_lt (by omega)

theorem toInt64_eq {n : Nat} (h : n < 2 ^ 63) : toInt64 n = (n : Int) := by
  unfold toInt64
  rw [Nat.mod_eq_of_lt (by omega)]
  rw [if_pos h]

/-! ### Association list helpers

Go `map` values are modelled as association lists; `alookup` is map read,
`aset` is map write (in-place update of an existing key, append of a new
one), `aerase` is `delete`. -/

def alookup {α : Type} (m : List (Nat × α)) (k : Nat) : Option α :=
  match m with
  | [] => none
  | (k2, v) :: rest => if k2 = k then some v else alookup rest k

def aset {α : Type} (m : List (Nat × α)) (k : Nat) (v : α) : List (Nat × α) :=
  match m with
  | [] => [(k, v)]
  | (k2, v2) :: rest => if k2 = k then (k, v) :: rest else (k2, v2) :: aset rest k v

def aerase {α : Type} (m : List (Nat × α)) (k : Nat) : List (Nat × α) :=
  match m with
  | [] => []
  | (k2, v2) :: rest => if k2 = k then aerase rest k else (k2, v2) :: aerase rest k

theorem alookup_aset_self {α : Type} (m : List (Nat × α)) (k : Nat) (v : α) :
    alookup (aset m k v) k = some v := by
  induction m with
  | nil => simp [aset, alookup]
  | cons hd tl ih =>
    obtain ⟨k2, v2⟩ := hd
    by_cases hk : k2 = k
    · simp [aset, hk, alookup]
    · simp [aset, hk, alookup, ih]

theorem aset_length_of_mem {α : Type} (m : List (Nat × α)) (k : Nat) (v : α)
    (h : (alookup m k).isSome) : (aset m k v).length = m.length := by
  induction m with
  | nil => simp [alookup] at h
  | cons hd tl ih =>
    obtain ⟨k2, v2⟩ := hd
    by_cases hk : k2 = k
    · simp [aset, hk]
    · simp only [alookup, if_neg hk] at h
      simp [aset, hk, ih h]

theorem alookup_aerase_self {α : Type} (m : List (Nat × α)) (k : Nat) :
    alookup (aerase m k) k = none := by
  induction m with
  | nil => rfl
  | cons hd tl ih =>
    obtain ⟨k2, v2⟩ := hd
    by_cases hk : k2 = k
    · simp [aerase, hk, ih]
    · simp [aerase, hk, alookup, ih]

/-! ### Gateway model (src/unnamed/part_001)

`modules.NetAddress` is a plain string; the peer and node maps are keyed
by it.  The peer session, the persist layer and the ThreadGroup live
outside src/, so they are modelled from the spec; their effects are
recorded in `closedSessions` (one entry per `p.sess.Close()` call) and
`saveCount` (one increment per `saveSync` call). -/

/-- Modelled from the spec: `modules.NetAddress` is a textual host:port
string and `Host` yields the host component (the implementation lives
outside src/).  Everything before the final colon is the host; an address
without a colon does not parse and yields the empty string. -/
def NetAddress.Host (a : String) : String :=
  match a.toList.reverse.dropWhile (fun c => c ≠ ':') with
  | [] => ""
  | _ :: rest => String.mk rest.reverse

/-- The in-memory state of the gitlab.com/NebulousLabs/ratelimit
`RateLimit` object as the gateway drives it: the two speeds and the
packet (burst) size last handed to `SetLimits`. -/
structure RateLimit where
  downloadSpeed : Int
  uploadSpeed : Int
  packetSize : Int
deriving Repr, DecidableEq

/-- Modelled from the spec: `ratelimit.SetLimits` atomically installs new
limits (the library implementation is outside src/). -/
def RateLimit.SetLimits (rl : RateLimit) (downloadSpeed uploadSpeed packetSize : Int) :
    RateLimit :=
  { downloadSpeed := downloadSpeed, uploadSpeed := uploadSpeed, packetSize := packetSize }

/-- The two fields of the gateway persistence struct that the claims
touch. -/
structure Persistence where
  maxDownloadSpeed : Int
  maxUploadSpeed : Int
deriving Repr, DecidableEq

/-- The gateway state relevant to the claims.  `peers` and `nodes` are the
key sets of the Go maps (the attached peer/node values play no role in the
claims), `blacklist` is the host set, `threadsStopped` is whether
`threads.Stop()` has begun, `closedSessions` records every
`p.sess.Close()` call and `saveCount` every `saveSync()` call. -/
structure Gateway where
  peers : List String
  nodes : List String
  blacklist : List String
  rl : RateLimit
  persist : Persistence
  threadsStopped : Bool
  closedSessions : List String
  saveCount : Nat
deriving Repr, DecidableEq

/-- Modelled from the spec: the sentinel error that
`siasync.ThreadGroup.Add` returns once `Stop` has begun (the ThreadGroup
implementation is outside src/). -/
def errStopped : String := "cannot add: thread group has already stopped"

/-- Modelled from the spec: `g.threads.Add()` fails with the stopped
sentinel once shutdown has begun and otherwise admits the caller. -/
def Gateway.threadsAdd (g : Gateway) : Option String :=
  if g.threadsStopped then some errStopped else none

/-- Modelled from the spec: `saveSync` persists the gateway state; the
persist layer is outside src/ and persistence failures are out of scope,
so the model records the attempt and succeeds. -/
def Gateway.saveSync (g : Gateway) : Option String × Gateway :=
  (none, { g with saveCount := g.saveCount + 1 })

/-- One iteration of the loop body of `addToBlacklist`
(src/unnamed/part_001 lines 169-180): close the session of the peer at the
exactly matching address if one is connected, delete that exact address
from `peers` and from `nodes`, and insert the address host into
`blacklist`. -/
def Gateway.blacklistStep (g : Gateway) (addr : String) : Gateway :=
  { peers := g.peers.filter (fun p => p ≠ addr),
    nodes := g.nodes.filter (fun p => p ≠ addr),
    blacklist :=
      if NetAddress.Host addr ∈ g.blacklist then g.blacklist
      else g.blacklist ++ [NetAddress.Host addr],
    rl := g.rl,
    persist := g.persist,
    threadsStopped := g.threadsStopped,
    closedSessions :=
      if addr ∈ g.peers then g.closedSessions ++ [addr] else g.closedSessions,
    saveCount := g.saveCount }

/-- `addToBlacklist` from src/unnamed/part_001: run the loop body over all
given addresses, then compose the session close errors with `saveSync`
(session closes always succeed in the model; they are recorded in
`closedSessions`). -/
def Gateway.addToBlacklist (g : Gateway) (addresses : List String) :
    Option String × Gateway :=
  Gateway.saveSync (addresses.foldl Gateway.blacklistStep g)

/-- `Gateway.AddToBlacklist`: ThreadGroup gate, then the internal add. -/
def Gateway.AddToBlacklist (g : Gateway) (addresses : List String) :
    Option String × Gateway :=
  match g.threadsAdd with
  | some e => (some e, g)
  | none => g.addToBlacklist addresses

/-- `Gateway.Blacklist`: ThreadGroup gate, then the blacklist contents. -/
def Gateway.Blacklist (g : Gateway) : Except String (List String) :=
  match g.threadsAdd with
  | some e => Except.error e
  | none => Except.ok g.blacklist

/-- `Gateway.RemoveFromBlacklist`: ThreadGroup gate, delete each given
address host from the blacklist, save.  Existing connections are never
touched. -/
def Gateway.RemoveFromBlacklist (g : Gateway) (addresses : List String) :
    Option String × Gateway :=
  match g.threadsAdd with
  | some e => (some e, g)
  | none =>
      Gateway.saveSync
        { g with
          blacklist := addresses.foldl
            (fun bl addr => bl.filter (fun h => h ≠ NetAddress.Host addr)) g.blacklist }

/-- `Gateway.SetBlacklist`: ThreadGroup gate, reset the blacklist, and
unless the new list is empty run the internal add on it; both paths
save. -/
def Gateway.SetBlacklist (g : Gateway) (addresses : List String) :
    Option String × Gateway :=
  match g.threadsAdd with
  | some e => (some e, g)
  | none =>
      let g1 := { g with blacklist := [] }
      if addresses.length = 0 then Gateway.saveSync g1
      else g1.addToBlacklist addresses

/-- `Gateway.ForwardPort`: ThreadGroup gate, then `managedForwardPort`.
The port-forwarding code is outside src/; modelled from the spec as a
port-forward primitive whose outcome does not matter to the claims (it is
taken to succeed). -/
def Gateway.ForwardPort (g : Gateway) (port : String) : Option String :=
  match g.threadsAdd with
  | some e => some e
  | none => none

/-- `setRateLimits` from src/unnamed/part_001: input validation, then
either the sentinel pair (0, 0) clears the limits or the pair is installed
with a 4*4096 byte burst.  (The source error string contains an
apostrophe; it is paraphrased here without one.) -/
def setRateLimits (rl : RateLimit) (downloadSpeed uploadSpeed : Int) :
    Except String RateLimit :=
  if downloadSpeed < 0 ∨ uploadSpeed < 0 then
    Except.error "download/upload rate cannot be below 0"
  else if downloadSpeed = 0 ∧ uploadSpeed = 0 then
    Except.ok (rl.SetLimits 0 0 0)
  else
    Except.ok (rl.SetLimits downloadSpeed uploadSpeed (4 * 4096))

/-- `Gateway.SetRateLimits` from src/unnamed/part_001: note that unlike
the other exported mutation APIs it performs no ThreadGroup gate.  It sets
the in-memory limits, mirrors them into the persistence struct and
saves. -/
def Gateway.SetRateLimits (g : Gateway) (downloadSpeed uploadSpeed : Int) :
    Option String × Gateway :=
  match setRateLimits g.rl downloadSpeed uploadSpeed with
  | Except.error e => (some e, g)
  | Except.ok rl2 =>
      let p2 : Persistence :=
        { maxDownloadSpeed := downloadSpeed, maxUploadSpeed := uploadSpeed }
      Gateway.saveSync { g with rl := rl2, persist := p2 }

/-! ### Facts about one blacklist loop iteration -/

theorem blacklistStep_peers (g : Gateway) (a : String) :
    (Gateway.blacklistStep g a).peers = g.peers.filter (fun p => p ≠ a) := rfl

theorem blacklistStep_nodes (g : Gateway) (a : String) :
    (Gateway.blacklistStep g a).nodes = g.nodes.filter (fun p => p ≠ a) := rfl

theorem blacklistStep_blacklist (g : Gateway) (a : String) :
    (Gateway.blacklistStep g a).blacklist =
      if NetAddress.Host a ∈ g.blacklist then g.blacklist
      else g.blacklist ++ [NetAddress.Host a] := rfl

theorem blacklistStep_closed (g : Gateway) (a : String) :
    (Gateway.blacklistStep g a).closedSessions =
      if a ∈ g.peers then g.closedSessions ++ [a] else g.closedSessions := rfl

theorem blacklistFold_peers (addresses : List String) (g : Gateway) (p : String) :
    p ∈ (addresses.foldl Gateway.blacklistStep g).peers ↔
      p ∈ g.peers ∧ p ∉ addresses := by
  induction addresses generalizing g with
  | nil => simp
  | cons a as ih =>
    rw [List.foldl_cons, ih]
    simp only [blacklistStep_peers, List.mem_filter, decide_eq_true_eq, List.mem_cons]
    tauto

theorem blacklistFold_nodes (addresses : List String) (g : Gateway) (p : String) :
    p ∈ (addresses.foldl Gateway.blacklistStep g).nodes ↔
      p ∈ g.nodes ∧ p ∉ addresses := by
  induction addresses generalizing g with
  | nil => simp
  | cons a as ih =>
    rw [List.foldl_cons, ih]
    simp only [blacklistStep_nodes, List.mem_filter, decide_eq_true_eq, List.mem_cons]
    tauto

theorem blacklistFold_blacklist_mono (addresses : List String) (g : Gateway) (h : String)
    (hmem : h ∈ g.blacklist) :
    h ∈ (addresses.foldl Gateway.blacklistStep g).blacklist := by
  induction addresses generalizing g with
  | nil => simpa using hmem
  | cons a as ih =>
    rw [List.foldl_cons]
    apply ih
    rw [blacklistStep_blacklist]
    by_cases hc : NetAddress.Host a ∈ g.blacklist
    · rw [if_pos hc]; exact hmem
    · rw [if_neg hc]; exact List.mem_append_left _ hmem

theorem blacklistFold_blacklist_mem (addresses : List String) (g : Gateway) (a : String)
    (ha : a ∈ addresses) :
    NetAddress.Host a ∈ (addresses.foldl Gateway.blacklistStep g).blacklist := by
  induction addresses generalizing g with
  | nil => cases ha
  | cons b bs ih =>
    rw [List.foldl_cons]
    by_cases hab : a = b
    · subst hab
      apply blacklistFold_blacklist_mono
      rw [blacklistStep_blacklist]
      by_cases hc : NetAddress.Host a ∈ g.blacklist
      · rw [if_pos hc]; exact hc
      · rw [if_neg hc]; exact List.mem_append_right _ (List.mem_singleton_self _)
    · rcases List.mem_cons.mp ha with h1 | h2
      · exact absurd h1 hab
      · exact ih _ h2

theorem blacklistFold_closed_mono (addresses : List String) (g : Gateway) (c : String)
    (hc : c ∈ g.closedSessions) :
    c ∈ (addresses.foldl Gateway.blacklistStep g).closedSessions := by
  induction addresses generalizing g with
  | nil => simpa using hc
  | cons a as ih =>
    rw [List.foldl_cons]
    apply ih
    rw [blacklistStep_closed]
    by_cases hp : a ∈ g.peers
    · rw [if_pos hp]; exact List.mem_append_left _ hc
    · rw [if_neg hp]; exact hc

theorem blacklistFold_closed_mem (addresses : List String) (g : Gateway) (a : String)
    (ha : a ∈ addresses) (hp : a ∈ g.peers) :
    a ∈ (addresses.foldl Gateway.blacklistStep g).closedSessions := by
  induction addresses generalizing g with
  | nil => cases ha
  | cons b bs ih =>
    rw [List.foldl_cons]
    by_cases hab : a = b
    · subst hab
      apply blacklistFold_closed_mono
      rw [blacklistStep_closed, if_pos hp]
      exact List.mem_append_right _ (List.mem_singleton_self _)
    · rcases List.mem_cons.mp ha with h1 | h2
      · exact absurd h1 hab
      · apply ih _ h2
        rw [blacklistStep_peers]
        rw [List.mem_filter]
        exact ⟨hp, by simpa using hab⟩

/-! ### Claim C1 -/

/-- Claim C1 (amended): `addToBlacklist` closes and removes exactly the
peers at the given addresses (exact host:port matching, not host
matching), removes exactly those entries from the node map, and inserts
every given address's host into the blacklist.  A connected peer on the
same host at a different port is not disconnected, so afterwards a
connected peer's host may be in the blacklist. -/
theorem c1_addToBlacklist_exact (g : Gateway) (addresses : List String) :
    (∀ p, p ∈ (g.addToBlacklist addresses).2.peers ↔ p ∈ g.peers ∧ p ∉ addresses) ∧
    (∀ p, p ∈ (g.addToBlacklist addresses).2.nodes ↔ p ∈ g.nodes ∧ p ∉ addresses) ∧
    (∀ a ∈ addresses, NetAddress.Host a ∈ (g.addToBlacklist addresses).2.blacklist) ∧
    (∀ a ∈ addresses, a ∈ g.peers → a ∈ (g.addToBlacklist addresses).2.closedSessions) := by
  have hpeers : (g.addToBlacklist addresses).2.peers
      = (addresses.foldl Gateway.blacklistStep g).peers := rfl
  have hnodes : (g.addToBlacklist addresses).2.nodes
      = (addresses.foldl Gateway.blacklistStep g).nodes := rfl
  have hbl : (g.addToBlacklist addresses).2.blacklist
      = (addresses.foldl Gateway.blacklistStep g).blacklist := rfl
  have hcl : (g.addToBlacklist addresses).2.closedSessions
      = (addresses.foldl Gateway.blacklistStep g).closedSessions := rfl
  refine ⟨?_, ?_, ?_, ?_⟩
  · intro p; rw [hpeers]; exact blacklistFold_peers addresses g p
  · intro p; rw [hnodes]; exact blacklistFold_nodes addresses g p
  · intro a ha; rw [hbl]; exact blacklistFold_blacklist_mem addresses g a ha
  · intro a ha hp; rw [hcl]; exact blacklistFold_closed_mem addresses g a ha hp

/-- Gateway used for the C1 counterexample and witness: one connected peer
on host 1.2.3.4 at port 1111. -/
def c1Gateway : Gateway :=
  { peers := ["1.2.3.4:1111"], nodes := ["1.2.3.4:1111"], blacklist := [],
    rl := { downloadSpeed := 0, uploadSpeed := 0, packetSize := 0 },
    persist := { maxDownloadSpeed := 0, maxUploadSpeed := 0 },
    threadsStopped := false, closedSessions := [], saveCount := 0 }

/-- Claim C1 counterexample: blacklisting "1.2.3.4:9981" while a peer is
connected at "1.2.3.4:1111" (same host, different port) leaves that peer
connected with no session close, yet its host "1.2.3.4" is in the
blacklist afterwards — refuting both the host-matched disconnection and
the final no-blacklisted-peer condition of the claim. -/
theorem c1_counterexample :
    "1.2.3.4:1111" ∈ (c1Gateway.addToBlacklist ["1.2.3.4:9981"]).2.peers ∧
    NetAddress.Host "1.2.3.4:1111"
      ∈ (c1Gateway.addToBlacklist ["1.2.3.4:9981"]).2.blacklist ∧
    (c1Gateway.addToBlacklist ["1.2.3.4:9981"]).2.closedSessions = [] := by
  decide

/-- Witness for C1 (amended) on a concrete input: the exactly matching
address is removed and closed and its host blacklisted. -/
theorem c1_addToBlacklist_exact_witness :
    ("1.2.3.4:1111" ∉ (c1Gateway.addToBlacklist ["1.2.3.4:1111"]).2.peers) ∧
    NetAddress.Host "1.2.3.4:1111"
      ∈ (c1Gateway.addToBlacklist ["1.2.3.4:1111"]).2.blacklist ∧
    "1.2.3.4:1111" ∈ (c1Gateway.addToBlacklist ["1.2.3.4:1111"]).2.closedSessions := by
  have h := c1_addToBlacklist_exact c1Gateway ["1.2.3.4:1111"]
  exact ⟨fun hmem => ((h.1 _).mp hmem).2 (by decide),
    h.2.2.1 _ (by decide), h.2.2.2 _ (by decide) (by decide)⟩

/-! ### Claim C3 -/

/-- Claim C3 (amended): once `threads.Stop` has begun, `AddToBlacklist`,
`Blacklist`, `RemoveFromBlacklist`, `SetBlacklist` and `ForwardPort` all
return the stopped error and leave the gateway unchanged; `SetRateLimits`
alone has no ThreadGroup gate, so it performs the operation (and saves)
even after shutdown. -/
theorem c3_shutdown_gate (g : Gateway) (addrs : List String) (port : String) (d u : Int)
    (hstop : g.threadsStopped = true) (hd : 0 ≤ d) (hu : 0 ≤ u) :
    g.AddToBlacklist addrs = (some errStopped, g) ∧
    g.Blacklist = Except.error errStopped ∧
    g.RemoveFromBlacklist addrs = (some errStopped, g) ∧
    g.SetBlacklist addrs = (some errStopped, g) ∧
    g.ForwardPort port = some errStopped ∧
    (g.SetRateLimits d u).1 = none ∧
    (g.SetRateLimits d u).2.persist =
      { maxDownloadSpeed := d, maxUploadSpeed := u } ∧
    (g.SetRateLimits d u).2.saveCount = g.saveCount + 1 := by
  have hadd : g.threadsAdd = some errStopped := by
    unfold Gateway.threadsAdd
    rw [hstop]
    rfl
  have hsrl : (g.SetRateLimits d u).1 = none ∧
      (g.SetRateLimits d u).2.persist = { maxDownloadSpeed := d, maxUploadSpeed := u } ∧
      (g.SetRateLimits d u).2.saveCount = g.saveCount + 1 := by
    unfold Gateway.SetRateLimits setRateLimits
    rw [if_neg (by omega : ¬(d < 0 ∨ u < 0))]
    by_cases hz : d = 0 ∧ u = 0
    · rw [if_pos hz]
      exact ⟨rfl, rfl, rfl⟩
    · rw [if_neg hz]
      exact ⟨rfl, rfl, rfl⟩
  refine ⟨?_, ?_, ?_, ?_, ?_, hsrl.1, hsrl.2.1, hsrl.2.2⟩
  · unfold Gateway.AddToBlacklist
    rw [hadd]
  · unfold Gateway.Blacklist
    rw [hadd]
  · unfold Gateway.RemoveFromBlacklist
    rw [hadd]
  · unfold Gateway.SetBlacklist
    rw [hadd]
  · unfold Gateway.ForwardPort
    rw [hadd]

/-- Gateway used for the C3 counterexample and witness: shutdown has
already begun. -/
def c3Gateway : Gateway :=
  { peers := [], nodes := [], blacklist := ["9.9.9.9"],
    rl := { downloadSpeed := 1, uploadSpeed := 1, packetSize := 16384 },
    persist := { maxDownloadSpeed := 1, maxUploadSpeed := 1 },
    threadsStopped := true, closedSessions := [], saveCount := 0 }

/-- Claim C3 counterexample: with shutdown begun, `SetRateLimits (7, 9)`
does not return the shutdown error — it performs the mutation and saves,
refuting the claim for the listed API `SetRateLimits`. -/
theorem c3_counterexample :
    c3Gateway.threadsStopped = true ∧
    (c3Gateway.SetRateLimits 7 9).1 = none ∧
    (c3Gateway.SetRateLimits 7 9).2.persist.maxDownloadSpeed = 7 ∧
    (c3Gateway.SetRateLimits 7 9).2.persist.maxUploadSpeed = 9 ∧
    (c3Gateway.SetRateLimits 7 9).2.saveCount = 1 := by
  decide

/-- Witness for C3 (amended) on a concrete stopped gateway. -/
theorem c3_shutdown_gate_witness :
    c3Gateway.AddToBlacklist ["1.2.3.4:1"] = (some errStopped, c3Gateway) ∧
    c3Gateway.ForwardPort "9981" = some errStopped ∧
    (c3Gateway.SetRateLimits 1 2).1 = none := by
  have h := c3_shutdown_gate c3Gateway ["1.2.3.4:1"] "9981" 1 2 (by decide)
    (by decide) (by decide)
  exact ⟨h.1, h.2.2.2.2.1, h.2.2.2.2.2.1⟩

/-! ### Claim C8 -/

/-- Claim C8: `setRateLimits` rejects any negative speed, treats the pair
(0, 0) as the unlimited sentinel by installing limits (0, 0) with burst 0,
and installs any other non-negative pair with a burst window of exactly
4 * 4096 = 16384 bytes. -/
theorem c8_setRateLimits_spec (rl : RateLimit) (d u : Int) :
    (d < 0 ∨ u < 0 →
      setRateLimits rl d u = Except.error "download/upload rate cannot be below 0") ∧
    (d = 0 ∧ u = 0 →
      setRateLimits rl d u =
        Except.ok { downloadSpeed := 0, uploadSpeed := 0, packetSize := 0 }) ∧
    (0 ≤ d → 0 ≤ u → ¬(d = 0 ∧ u = 0) →
      setRateLimits rl d u =
        Except.ok { downloadSpeed := d, uploadSpeed := u, packetSize := 16384 }) := by
  refine ⟨fun h => ?_, fun h => ?_, fun hd hu hz => ?_⟩
  · unfold setRateLimits
    rw [if_pos h]
  · unfold setRateLimits RateLimit.SetLimits
    rw [if_neg (by omega : ¬(d < 0 ∨ u < 0)), if_pos h]
  · unfold setRateLimits RateLimit.SetLimits
    rw [if_neg (by omega : ¬(d < 0 ∨ u < 0)), if_neg hz]
    norm_num

/-- Witness for C8: the pair (3, 5) is installed with burst 16384. -/
theorem c8_setRateLimits_spec_witness :
    setRateLimits { downloadSpeed := 0, uploadSpeed := 0, packetSize := 0 } 3 5
      = Except.ok { downloadSpeed := 3, uploadSpeed := 5, packetSize := 16384 } :=
  (c8_setRateLimits_spec { downloadSpeed := 0, uploadSpeed := 0, packetSize := 0 } 3 5).2.2
    (by decide) (by decide) (by decide)

/-! ### Claim C9 -/

/-- Claim C9: a negative speed makes `Gateway.SetRateLimits` return the
validation error and leave the gateway completely untouched — neither the
rate limiter nor the persisted speeds are modified and no save is
attempted. -/
theorem c9_negative_rate_atomic (g : Gateway) (d u : Int) (h : d < 0 ∨ u < 0) :
    (g.SetRateLimits d u).1 = some "download/upload rate cannot be below 0" ∧
    (g.SetRateLimits d u).2.rl = g.rl ∧
    (g.SetRateLimits d u).2.persist = g.persist ∧
    (g.SetRateLimits d u).2.saveCount = g.saveCount ∧
    (g.SetRateLimits d u).2 = g := by
  unfold Gateway.SetRateLimits setRateLimits
  rw [if_pos h]
  exact ⟨rfl, rfl, rfl, rfl, rfl⟩

/-- Gateway used for the C9 witness. -/
def c9Gateway : Gateway :=
  { peers := [], nodes := [], blacklist := [],
    rl := { downloadSpeed := 3, uploadSpeed := 4, packetSize := 16384 },
    persist := { maxDownloadSpeed := 3, maxUploadSpeed := 4 },
    threadsStopped := false, closedSessions := [], saveCount := 2 }

/-- Witness for C9 at the concrete input (-1, 5). -/
theorem c9_negative_rate_atomic_witness :
    (c9Gateway.SetRateLimits (-1) 5).1
      = some "download/upload rate cannot be below 0" ∧
    (c9Gateway.SetRateLimits (-1) 5).2 = c9Gateway := by
  have h := c9_negative_rate_atomic c9Gateway (-1) 5 (Or.inl (by decide))
  exact ⟨h.1, h.2.2.2.2⟩

/-! ### Renter stream buffer model (src/modules/renter/streambuffer.go) -/

/-- `minimumDataSections` from the source: the streamer always buffers at
least the current and the next data section. -/
def minimumDataSections : Nat := 2

/-- `bytesBufferedPerStream`: the `build.Select` Dev/Standard value
(1 << 25); the build-flag machinery lives outside src/. -/
def bytesBufferedPerStream : Nat := 2 ^ 25

/-- The `streamBufferDataSource` interface.  `tag` is a model-level object
identity used to record which source object a `SilentClose` call hit;
`ReadAt` takes the buffer length and the byte offset and returns the bytes
written into the caller's buffer together with an optional error. -/
structure streamBufferDataSource where
  tag : Nat
  DataSize : Nat
  ID : Nat
  RequestSize : Nat
  ReadAt : Nat → Nat → List Nat × Option String

/-- A `dataSection`: `dataAvailable` models whether the completion channel
has been closed; `externData` and `externErr` are only meaningful once it
is true. -/
structure dataSection where
  dataAvailable : Bool
  externData : List Nat
  externErr : Option String
  refCount : Nat
deriving Repr, DecidableEq

/-- A `streamBuffer` for a single data source.  The Go struct's pointer to
the owning `streamBufferSet` is dropped (it is only used to reach the set
lock). -/
structure streamBuffer where
  dataSections : List (Nat × dataSection)
  externRefCount : Nat
  staticDataSize : Nat
  staticDataSource : streamBufferDataSource
  staticDataSectionSize : Nat
  staticStreamID : Nat

/-- A `stream`.  The per-stream LRU implementation is outside src/, so the
model keeps the computed capacity and records every `lru.callUpdate` call
in order in `lruUpdates`. -/
structure stream where
  lruUpdates : List Nat
  lruCap : Nat
  offset : Nat
  staticStreamBuffer : streamBuffer

/-- The set of all active stream buffers, keyed by stream id. -/
structure streamBufferSet where
  streams : List (Nat × streamBuffer)

/-- `newStreamBufferSet`. -/
def newStreamBufferSet : streamBufferSet := { streams := [] }

/-- The fetch size computation of `newDataSection`: `dataSectionSize`,
except for the final section which gets exactly the remaining bytes. -/
def sectionFetchSize (dataSize dataSectionSize index : Nat) : Nat :=
  if w64 ((index + 1) * dataSectionSize) > dataSize then
    sub64 dataSize (w64 (index * dataSectionSize))
  else dataSectionSize

/-- One `ReadAt` request issued against the data source: the length of the
buffer handed to `ReadAt` and the byte offset of the request. -/
structure FetchReq where
  bufLen : Nat
  offset : Nat
deriving Repr, DecidableEq

/-- Copy-into-buffer semantics of Go's `io.ReaderAt`: the destination
keeps its length; bytes beyond what the source wrote keep their previous
value. -/
def fillBuf (buf src : List Nat) : List Nat :=
  src.take buf.length ++ buf.drop src.length

/-- The body of the fetch goroutine spawned by `newDataSection`: one
`ReadAt` into the section's buffer, record the error with its context,
close the completion channel. -/
def runFetch (src : streamBufferDataSource) (index dataSectionSize : Nat)
    (ds : dataSection) : dataSection :=
  let res := src.ReadAt ds.externData.length (w64 (index * dataSectionSize))
  { ds with
    externData := fillBuf ds.externData res.1,
    externErr := res.2.map (fun e => "data section fetch failed: " ++ e),
    dataAvailable := true }

/-- `streamBuffer.newDataSection`: allocate exactly the fetch size,
install the section in the buffer map, and describe the single `ReadAt`
the spawned goroutine (`runFetch`) will issue. -/
def streamBuffer.newDataSection (sb : streamBuffer) (index : Nat) :
    streamBuffer × dataSection × FetchReq :=
  let fetchSize := sectionFetchSize sb.staticDataSize sb.staticDataSectionSize index
  let ds : dataSection :=
    { dataAvailable := false, externData := List.replicate fetchSize 0,
      externErr := none, refCount := 0 }
  ({ sb with dataSections := aset sb.dataSections index ds }, ds,
    { bufLen := fetchSize, offset := w64 (index * sb.staticDataSectionSize) })

/-- The `bytesRemaining` computation of `stream.Read`: bytes left in the
current section if it is not the last one, otherwise bytes left in the
data source. -/
def readBytesRemaining (dataSize dataSectionSize offset : Nat) : Nat :=
  let currentSection := offset / dataSectionSize
  if w64 ((currentSection + 1) * dataSectionSize) ≥ dataSize then sub64 dataSize offset
  else sub64 dataSectionSize (offset % dataSectionSize)

/-- The `bytesToRead` computation of `stream.Read`: the remaining bytes
capped at the destination length. -/
def readBytesToRead (dataSize dataSectionSize offset bLen : Nat) : Nat :=
  let bytesRemaining := readBytesRemaining dataSize dataSectionSize offset
  if bytesRemaining > bLen then bLen else bytesRemaining

/-- `stream.prepareOffset`: record the LRU update for the section holding
the current offset and, if a following section exists, for that one too;
at the very end of the data there is nothing to do. -/
def stream.prepareOffset (s : stream) : stream :=
  let dataSize := s.staticStreamBuffer.staticDataSize
  let dataSectionSize := s.staticStreamBuffer.staticDataSectionSize
  if s.offset = dataSize then s
  else
    let index := s.offset / dataSectionSize
    let s1 := { s with lruUpdates := s.lruUpdates ++ [index] }
    let nextIndex := w64 (index + 1)
    if w64 (nextIndex * dataSectionSize) < dataSize then
      { s1 with lruUpdates := s1.lruUpdates ++ [nextIndex] }
    else s1

/-- Outcome of a `stream.Read` call.  `eof` is `(0, io.EOF)`; `blocked`
models a wait on a completion channel that never closes; `crash` models
both the `build.Critical` logic error and the slice-bounds panic. -/
inductive ReadResult where
  | ok (n : Nat) (bytes : List Nat)
  | eof
  | err (e : String)
  | blocked
  | crash (msg : String)
deriving Repr, DecidableEq

/-- `stream.Read`: end-of-file check, section/offset arithmetic, wait for
the section data, copy into the destination (of length `bLen`), advance
the offset and prepare the new offset. -/
def stream.Read (s : stream) (bLen : Nat) : ReadResult × stream :=
  let dataSize := s.staticStreamBuffer.staticDataSize
  let dataSectionSize := s.staticStreamBuffer.staticDataSectionSize
  if s.offset = dataSize then (ReadResult.eof, s)
  else
    let currentSection := s.offset / dataSectionSize
    let offsetInSection := s.offset % dataSectionSize
    let bytesToRead := readBytesToRead dataSize dataSectionSize s.offset bLen
    match alookup s.staticStreamBuffer.dataSections currentSection with
    | none =>
        (ReadResult.crash
          "data section should always in the stream buffer for the current offset of a stream",
          s)
    | some ds =>
        if ds.dataAvailable then
          match ds.externErr with
          | some e =>
              (ReadResult.err ("read call failed because data section fetch failed: " ++ e), s)
          | none =>
              if offsetInSection + bytesToRead ≤ ds.externData.length then
                let chunk := (ds.externData.drop offsetInSection).take bytesToRead
                let n := min bLen chunk.length
                let s2 := { s with offset := w64 (s.offset + n) }
                (ReadResult.ok n chunk, s2.prepareOffset)
              else (ReadResult.crash "slice bounds out of range", s)
        else (ReadResult.blocked, s)

/-- `stream.Seek`; `whence` uses the io package constants 0 = SeekStart,
1 = SeekCurrent, 2 = SeekEnd.  (Source error strings with apostrophes are
paraphrased without them.) -/
def stream.Seek (s : stream) (offset : Int) (whence : Int) :
    (Int × Option String) × stream :=
  if offset < 0 then
    ((toInt64 s.offset, some "offset cannot be negative in call to seek"), s)
  else
    let dataSize := s.staticStreamBuffer.staticDataSize
    if whence = 0 then
      let s2 := stream.prepareOffset { s with offset := w64 offset.toNat }
      ((toInt64 s2.offset, none), s2)
    else if whence = 1 then
      let newOffset := w64 (s.offset + offset.toNat)
      if newOffset > dataSize then
        ((toInt64 s.offset, some "offset cannot seek beyond the bounds of the file"), s)
      else
        let s2 := stream.prepareOffset { s with offset := newOffset }
        ((toInt64 s2.offset, none), s2)
    else if whence = 2 then
      if offset.toNat > dataSize then
        ((toInt64 s.offset, some "cannot seek before the front of the file"), s)
      else
        let s2 := stream.prepareOffset { s with offset := sub64 dataSize offset.toNat }
        ((toInt64 s2.offset, none), s2)
    else
      ((toInt64 s.offset, some "invalid value for whence in call to seek"), s)

/-- `streamBufferSet.callNewStream`: reuse the existing buffer for the
source id (silently closing the caller's redundant source) or install a
new one, bump its refcount, and build the stream (whose LRU capacity is
`bytesBufferedPerStream / sectionSize`, at least `minimumDataSections`).
The returned tag list records the `SilentClose` calls made. -/
def streamBufferSet.callNewStream (sbs : streamBufferSet)
    (dataSource : streamBufferDataSource) (initialOffset : Nat) :
    streamBufferSet × stream × List Nat :=
  let sourceID := dataSource.ID
  let found := alookup sbs.streams sourceID
  let streamBuf : streamBuffer :=
    match found with
    | none =>
        { dataSections := [], externRefCount := 0,
          staticDataSize := dataSource.DataSize,
          staticDataSource := dataSource,
          staticDataSectionSize := dataSource.RequestSize,
          staticStreamID := sourceID }
    | some sb => sb
  let closes : List Nat :=
    match found with
    | none => []
    | some _ => [dataSource.tag]
  let streamBuf2 :=
    { streamBuf with externRefCount := w64 (streamBuf.externRefCount + 1) }
  let streams2 := aset sbs.streams sourceID streamBuf2
  let dataSectionsToCache :=
    let c := bytesBufferedPerStream / streamBuf2.staticDataSectionSize
    if c < minimumDataSections then minimumDataSections else c
  let str :=
    stream.prepareOffset
      { lruUpdates := [], lruCap := dataSectionsToCache, offset := initialOffset,
        staticStreamBuffer := streamBuf2 }
  ({ streams := streams2 }, str, closes)

/-- `streamBufferSet.managedRemoveStream`, keyed by the buffer's stream
id: decrement the buffer's refcount; on reaching zero, remove the buffer
from the set and silently close the buffer's own data source.  The
returned tag list records the `SilentClose` calls made. -/
def streamBufferSet.managedRemoveStream (sbs : streamBufferSet) (id : Nat) :
    streamBufferSet × List Nat :=
  match alookup sbs.streams id with
  | none => (sbs, [])
  | some sb =>
      let rc := sub64 sb.externRefCount 1
      if rc > 0 then
        ({ streams := aset sbs.streams id { sb with externRefCount := rc } }, [])
      else
        ({ streams := aerase sbs.streams id }, [sb.staticDataSource.tag])

/-- `stream.Close`: evict the whole LRU (implementation outside src/) and
remove the stream from its buffer via the stream buffer set. -/
def stream.Close (s : stream) (sbs : streamBufferSet) : streamBufferSet × List Nat :=
  sbs.managedRemoveStream s.staticStreamBuffer.staticStreamID

/-! ### Arithmetic facts about the read/seek computations -/

theorem prepareOffset_offset (s : stream) :
    (stream.prepareOffset s).offset = s.offset := by
  simp only [stream.prepareOffset]
  split
  · rfl
  · split <;> rfl

theorem prepareOffset_buffer (s : stream) :
    (stream.prepareOffset s).staticStreamBuffer = s.staticStreamBuffer := by
  simp only [stream.prepareOffset]
  split
  · rfl
  · split <;> rfl

theorem readBytesRemaining_eq (dataSize K offset : Nat) (hss : 0 < K)
    (hoff : offset < dataSize) (hbig : dataSize + K < 2 ^ 64) :
    readBytesRemaining dataSize K offset
      = min (K - offset % K) (dataSize - offset) := by
  have hmod : offset % K < K := Nat.mod_lt offset hss
  have hdm : K * (offset / K) + offset % K = offset := Nat.div_add_mod offset K
  have hdm2 : (offset / K) * K + offset % K = offset := by
    rw [Nat.mul_comm (offset / K) K]
    exact hdm
  have hmul : (offset / K + 1) * K = (offset / K) * K + K := Nat.succ_mul _ _
  have hjK : (offset / K) * K ≤ offset := Nat.div_mul_le_self _ _
  have hw : w64 ((offset / K + 1) * K) = (offset / K + 1) * K := w64_id (by omega)
  simp only [readBytesRemaining, hw]
  by_cases hlast : (offset / K + 1) * K ≥ dataSize
  · rw [if_pos hlast, sub64_eq (le_of_lt hoff) (by omega)]
    rw [hmul] at hlast
    have hle2 : dataSize - offset ≤ K - offset % K := by omega
    exact (Nat.min_eq_right hle2).symm
  · rw [if_neg hlast, sub64_eq (le_of_lt hmod) (by omega)]
    rw [hmul] at hlast
    have hle2 : K - offset % K ≤ dataSize - offset := by omega
    exact (Nat.min_eq_left hle2).symm

theorem readBytesToRead_le_rem (dataSize K offset bLen : Nat) :
    readBytesToRead dataSize K offset bLen ≤ readBytesRemaining dataSize K offset := by
  simp only [readBytesToRead]
  split <;> omega

theorem readBytesToRead_le_bLen (dataSize K offset bLen : Nat) :
    readBytesToRead dataSize K offset bLen ≤ bLen := by
  simp only [readBytesToRead]
  split <;> omega

theorem read_slice_bound (dataSize K offset bLen : Nat) (hss : 0 < K)
    (hoff : offset < dataSize) (hbig : dataSize + K < 2 ^ 64) :
    offset % K + readBytesToRead dataSize K offset bLen
      ≤ sectionFetchSize dataSize K (offset / K) := by
  have hrem := readBytesRemaining_eq dataSize K offset hss hoff hbig
  have hbtr := readBytesToRead_le_rem dataSize K offset bLen
  rw [hrem] at hbtr
  have hb1 : readBytesToRead dataSize K offset bLen ≤ K - offset % K :=
    le_trans hbtr (Nat.min_le_left _ _)
  have hb2 : readBytesToRead dataSize K offset bLen ≤ dataSize - offset :=
    le_trans hbtr (Nat.min_le_right _ _)
  have hmod : offset % K < K := Nat.mod_lt offset hss
  have hdm2 : (offset / K) * K + offset % K = offset := by
    rw [Nat.mul_comm (offset / K) K]
    exact Nat.div_add_mod offset K
  have hmul : (offset / K + 1) * K = (offset / K) * K + K := Nat.succ_mul _ _
  have hjK : (offset / K) * K ≤ offset := Nat.div_mul_le_self _ _
  have hw1 : w64 ((offset / K + 1) * K) = (offset / K + 1) * K := w64_id (by omega)
  have hw2 : w64 ((offset / K) * K) = (offset / K) * K := w64_id (by omega)
  simp only [sectionFetchSize, hw1, hw2]
  by_cases hfin : (offset / K + 1) * K > dataSize
  · rw [if_pos hfin, sub64_eq (by omega) (by omega)]
    omega
  · rw [if_neg hfin]
    omega

theorem Read_offset_le (s : stream) (bLen : Nat)
    (hss : 0 < s.staticStreamBuffer.staticDataSectionSize)
    (hle : s.offset ≤ s.staticStreamBuffer.staticDataSize)
    (hbig : s.staticStreamBuffer.staticDataSize +
      s.staticStreamBuffer.staticDataSectionSize < 2 ^ 64) :
    (s.Read bLen).2.offset ≤ s.staticStreamBuffer.staticDataSize := by
  by_cases heq : s.offset = s.staticStreamBuffer.staticDataSize
  · simp [stream.Read, heq]
  · have hlt : s.offset < s.staticStreamBuffer.staticDataSize := lt_of_le_of_ne hle heq
    have hrem := readBytesRemaining_eq s.staticStreamBuffer.staticDataSize
      s.staticStreamBuffer.staticDataSectionSize s.offset hss hlt hbig
    have hbtr := readBytesToRead_le_rem s.staticStreamBuffer.staticDataSize
      s.staticStreamBuffer.staticDataSectionSize s.offset bLen
    have hb2 : readBytesToRead s.staticStreamBuffer.staticDataSize
        s.staticStreamBuffer.staticDataSectionSize s.offset bLen
        ≤ s.staticStreamBuffer.staticDataSize - s.offset := by
      rw [hrem] at hbtr
      exact le_trans hbtr (Nat.min_le_right _ _)
    simp only [stream.Read, if_neg heq]
    split
    · exact hle
    · rename_i ds hds
      split
      · split
        · exact hle
        · split
          · dsimp only
            rw [prepareOffset_offset]
            dsimp only
            simp only [w64, List.length_take, List.length_drop]
            omega
          · exact hle
      · exact hle

theorem Seek_offset_le (s : stream) (off whence : Int) (hw : whence ≠ 0)
    (hle : s.offset ≤ s.staticStreamBuffer.staticDataSize)
    (hds : s.staticStreamBuffer.staticDataSize < 2 ^ 64) :
    (s.Seek off whence).2.offset ≤ s.staticStreamBuffer.staticDataSize := by
  simp only [stream.Seek]
  by_cases hneg : off < 0
  · rw [if_pos hneg]
    exact hle
  · rw [if_neg hneg, if_neg hw]
    by_cases h1 : whence = 1
    · rw [if_pos h1]
      by_cases hgt : w64 (s.offset + off.toNat) > s.staticStreamBuffer.staticDataSize
      · rw [if_pos hgt]
        exact hle
      · rw [if_neg hgt, prepareOffset_offset]
        show w64 (s.offset + off.toNat) ≤ s.staticStreamBuffer.staticDataSize
        omega
    · rw [if_neg h1]
      by_cases h2 : whence = 2
      · rw [if_pos h2]
        by_cases hgt : off.toNat > s.staticStreamBuffer.staticDataSize
        · rw [if_pos hgt]
          exact hle
        · rw [if_neg hgt, prepareOffset_offset]
          show sub64 s.staticStreamBuffer.staticDataSize off.toNat
            ≤ s.staticStreamBuffer.staticDataSize
          rw [sub64_eq (by omega) hds]
          omega
      · rw [if_neg h2]
        exact hle

/-! ### Claim C2 -/

/-- Claim C2 (amended): under `Read`, `Seek` with `SeekCurrent` or
`SeekEnd` (and any invalid whence), the stream offset stays in
[0, dataSize], and a `Read` issued at offset = dataSize returns
end-of-stream with zero bytes read; `Seek` with `SeekStart` however does
not validate its argument against dataSize, so it can move the offset
beyond dataSize. -/
theorem c2_offset_invariant (s : stream) (bLen : Nat) (off whence : Int)
    (hss : 0 < s.staticStreamBuffer.staticDataSectionSize)
    (hle : s.offset ≤ s.staticStreamBuffer.staticDataSize)
    (hbig : s.staticStreamBuffer.staticDataSize +
      s.staticStreamBuffer.staticDataSectionSize < 2 ^ 64)
    (hw : whence ≠ 0) :
    (s.Read bLen).2.offset ≤ s.staticStreamBuffer.staticDataSize ∧
    (s.Seek off whence).2.offset ≤ s.staticStreamBuffer.staticDataSize ∧
    (s.offset = s.staticStreamBuffer.staticDataSize →
      s.Read bLen = (ReadResult.eof, s)) :=
  ⟨Read_offset_le s bLen hss hle hbig,
   Seek_offset_le s off whence hw hle (by omega),
   fun h => by simp [stream.Read, h]⟩

/-- Stream used for the C2 counterexample and witness: dataSize 1000,
section size 64, offset 0, no cached sections. -/
def c2Stream : stream :=
  { lruUpdates := [], lruCap := 2, offset := 0,
    staticStreamBuffer :=
      { dataSections := [], externRefCount := 1, staticDataSize := 1000,
        staticDataSource :=
          { tag := 0, DataSize := 1000, ID := 0, RequestSize := 64,
            ReadAt := fun _ _ => ([], none) },
        staticDataSectionSize := 64, staticStreamID := 0 } }

/-- Claim C2 counterexample: `Seek(2000, SeekStart)` on a stream with
dataSize 1000 succeeds and leaves the offset at 2000 > dataSize, so the
offset does not stay within [0, dataSize] under every Seek. -/
theorem c2_counterexample :
    (c2Stream.Seek 2000 0).2.offset = 2000 ∧
    (c2Stream.Seek 2000 0).1.2 = none ∧
    c2Stream.staticStreamBuffer.staticDataSize = 1000 := by
  decide

/-- Witness for C2 (amended) on a concrete stream. -/
theorem c2_offset_invariant_witness :
    (c2Stream.Read 10).2.offset ≤ 1000 ∧
    (c2Stream.Seek 100 2).2.offset ≤ 1000 := by
  have h := c2_offset_invariant c2Stream 10 100 2 (by decide) (by decide)
    (by decide) (by decide)
  exact ⟨h.1, h.2.1⟩

theorem Seek_one (s : stream) (off : Int) :
    s.Seek off 1
      = if off < 0 then
          ((toInt64 s.offset, some "offset cannot be negative in call to seek"), s)
        else if w64 (s.offset + off.toNat) > s.staticStreamBuffer.staticDataSize then
          ((toInt64 s.offset, some "offset cannot seek beyond the bounds of the file"), s)
        else
          ((toInt64 (stream.prepareOffset { s with
              offset := w64 (s.offset + off.toNat) }).offset, none),
            stream.prepareOffset { s with offset := w64 (s.offset + off.toNat) }) := rfl

theorem Seek_two (s : stream) (off : Int) :
    s.Seek off 2
      = if off < 0 then
          ((toInt64 s.offset, some "offset cannot be negative in call to seek"), s)
        else if off.toNat > s.staticStreamBuffer.staticDataSize then
          ((toInt64 s.offset, some "cannot seek before the front of the file"), s)
        else
          ((toInt64 (stream.prepareOffset { s with
              offset := sub64 s.staticStreamBuffer.staticDataSize off.toNat }).offset, none),
            stream.prepareOffset { s with
              offset := sub64 s.staticStreamBuffer.staticDataSize off.toNat }) := rfl

/-! ### Claim C4 -/

/-- Claim C4: `Seek` rejects a negative offset leaving the stream
unchanged; with SeekEnd an offset greater than dataSize is rejected and
otherwise the offset becomes dataSize - offset (the argument is a
positive distance before the end); with SeekCurrent a result exceeding
dataSize is rejected; and on success Seek returns the new offset. -/
theorem c4_seek_spec (s : stream) (off whence : Int)
    (hle : s.offset ≤ s.staticStreamBuffer.staticDataSize)
    (hds : s.staticStreamBuffer.staticDataSize < 2 ^ 63)
    (hoffr : off < 2 ^ 63) :
    (off < 0 →
      s.Seek off whence
        = ((toInt64 s.offset, some "offset cannot be negative in call to seek"), s)) ∧
    (0 ≤ off → whence = 2 → off.toNat > s.staticStreamBuffer.staticDataSize →
      s.Seek off whence
        = ((toInt64 s.offset, some "cannot seek before the front of the file"), s)) ∧
    (0 ≤ off → whence = 2 → off.toNat ≤ s.staticStreamBuffer.staticDataSize →
      (s.Seek off whence).2.offset = s.staticStreamBuffer.staticDataSize - off.toNat ∧
      (s.Seek off whence).1
        = (toInt64 (s.staticStreamBuffer.staticDataSize - off.toNat), none)) ∧
    (0 ≤ off → whence = 1 →
        s.offset + off.toNat > s.staticStreamBuffer.staticDataSize →
      s.Seek off whence
        = ((toInt64 s.offset, some "offset cannot seek beyond the bounds of the file"), s)) ∧
    (∀ r s2, s.Seek off whence = ((r, none), s2) → r = toInt64 s2.offset) := by
  refine ⟨fun hneg => ?_, fun hp hwh hgt => ?_, fun hp hwh hgt => ?_,
    fun hp hwh hgt => ?_, fun r s2 hsucc => ?_⟩
  · simp only [stream.Seek, if_pos hneg]
  · subst hwh
    rw [Seek_two, if_neg (show ¬ off < 0 by omega), if_pos hgt]
  · subst hwh
    have hs64 : sub64 s.staticStreamBuffer.staticDataSize off.toNat
        = s.staticStreamBuffer.staticDataSize - off.toNat :=
      sub64_eq hgt (by omega)
    have hred : s.Seek off 2
        = ((toInt64 (stream.prepareOffset { s with
              offset := sub64 s.staticStreamBuffer.staticDataSize off.toNat }).offset, none),
          stream.prepareOffset { s with
            offset := sub64 s.staticStreamBuffer.staticDataSize off.toNat }) := by
      rw [Seek_two, if_neg (show ¬ off < 0 by omega),
        if_neg (show ¬ off.toNat > s.staticStreamBuffer.staticDataSize by omega)]
    constructor
    · rw [hred]
      dsimp only
      rw [prepareOffset_offset]
      exact hs64
    · rw [hred]
      dsimp only
      rw [prepareOffset_offset]
      dsimp only
      rw [hs64]
  · subst hwh
    have hw64 : w64 (s.offset + off.toNat) = s.offset + off.toNat :=
      w64_id (by omega)
    rw [Seek_one, if_neg (show ¬ off < 0 by omega), hw64, if_pos hgt]
  · revert hsucc
    simp only [stream.Seek]
    by_cases hneg : off < 0
    · rw [if_pos hneg]
      intro hsucc
      injection hsucc with ha hb
      injection ha with ha1 ha2
      exact Option.noConfusion ha2
    · rw [if_neg hneg]
      by_cases h0 : whence = 0
      · rw [if_pos h0]
        intro hsucc
        injection hsucc with ha hb
        injection ha with ha1 ha2
        rw [← ha1, ← hb]
      · rw [if_neg h0]
        by_cases h1 : whence = 1
        · rw [if_pos h1]
          by_cases hgt : w64 (s.offset + off.toNat) > s.staticStreamBuffer.staticDataSize
          · rw [if_pos hgt]
            intro hsucc
            injection hsucc with ha hb
            injection ha with ha1 ha2
            exact Option.noConfusion ha2
          · rw [if_neg hgt]
            intro hsucc
            injection hsucc with ha hb
            injection ha with ha1 ha2
            rw [← ha1, ← hb]
        · rw [if_neg h1]
          by_cases h2 : whence = 2
          · rw [if_pos h2]
            by_cases hgt : off.toNat > s.staticStreamBuffer.staticDataSize
            · rw [if_pos hgt]
              intro hsucc
              injection hsucc with ha hb
              injection ha with ha1 ha2
              exact Option.noConfusion ha2
            · rw [if_neg hgt]
              intro hsucc
              injection hsucc with ha hb
              injection ha with ha1 ha2
              rw [← ha1, ← hb]
          · rw [if_neg h2]
            intro hsucc
            injection hsucc with ha hb
            injection ha with ha1 ha2
            exact Option.noConfusion ha2

/-- Stream used for the C4 witness: dataSize 1000, offset 0. -/
def c4Stream : stream :=
  { lruUpdates := [], lruCap := 2, offset := 0,
    staticStreamBuffer :=
      { dataSections := [], externRefCount := 1, staticDataSize := 1000,
        staticDataSource :=
          { tag := 0, DataSize := 1000, ID := 0, RequestSize := 64,
            ReadAt := fun _ _ => ([], none) },
        staticDataSectionSize := 64, staticStreamID := 0 } }

/-- Witness for C4: the spec scenario `dataSize = 1000`,
`seek(100, SeekEnd)` lands at offset 900, and `seek(1001, SeekEnd)`
fails. -/
theorem c4_seek_spec_witness :
    (c4Stream.Seek 100 2).2.offset = 900 ∧
    (c4Stream.Seek 100 2).1 = (toInt64 900, none) ∧
    (c4Stream.Seek 1001 2)
      = ((toInt64 0, some "cannot seek before the front of the file"), c4Stream) := by
  have h := c4_seek_spec c4Stream 100 2 (by decide) (by decide) (by decide)
  have h2 := c4_seek_spec c4Stream 1001 2 (by decide) (by decide) (by decide)
  have h3 := h.2.2.1 (by decide) rfl (by decide)
  exact ⟨h3.1, h3.2, h2.2.1 (by decide) rfl (by decide)⟩

/-! ### Claim C10 -/

/-- Claim C10: for a `Read` at 0 ≤ offset < dataSize with a positive
section size, the unsigned subtraction dataSize - offset does not
underflow (the uint64 result equals the mathematical difference), and the
slice bounds of the copy satisfy
offsetInSection + bytesToRead ≤ fetch-buffer length of the section
allocated by `newDataSection` for index offset / sectionSize, for both
final and non-final sections. -/
theorem c10_read_in_bounds (dataSize K offset bLen : Nat)
    (hss : 0 < K) (hoff : offset < dataSize) (hbig : dataSize + K < 2 ^ 64) :
    sub64 dataSize offset = dataSize - offset ∧
    offset % K + readBytesToRead dataSize K offset bLen
      ≤ sectionFetchSize dataSize K (offset / K) :=
  ⟨sub64_eq (le_of_lt hoff) (by omega),
   read_slice_bound dataSize K offset bLen hss hoff hbig⟩

/-- Witness for C10 at dataSize 10, section size 4, offset 5 (non-final
section) and offset 9 (final section). -/
theorem c10_read_in_bounds_witness :
    (sub64 10 5 = 10 - 5 ∧
      5 % 4 + readBytesToRead 10 4 5 3 ≤ sectionFetchSize 10 4 (5 / 4)) ∧
    (sub64 10 9 = 10 - 9 ∧
      9 % 4 + readBytesToRead 10 4 9 3 ≤ sectionFetchSize 10 4 (9 / 4)) :=
  ⟨c10_read_in_bounds 10 4 5 3 (by decide) (by decide) (by norm_num),
   c10_read_in_bounds 10 4 9 3 (by decide) (by decide) (by norm_num)⟩

/-! ### Claim C5 -/

theorem prepareOffset_lruUpdates (s : stream)
    (hss : 0 < s.staticStreamBuffer.staticDataSectionSize)
    (hle : s.offset ≤ s.staticStreamBuffer.staticDataSize)
    (hbig : s.staticStreamBuffer.staticDataSize +
      s.staticStreamBuffer.staticDataSectionSize < 2 ^ 64) :
    (stream.prepareOffset s).lruUpdates =
      s.lruUpdates ++
        (if s.offset = s.staticStreamBuffer.staticDataSize then []
         else if (s.offset / s.staticStreamBuffer.staticDataSectionSize + 1) *
             s.staticStreamBuffer.staticDataSectionSize <
             s.staticStreamBuffer.staticDataSize then
           [s.offset / s.staticStreamBuffer.staticDataSectionSize,
            s.offset / s.staticStreamBuffer.staticDataSectionSize + 1]
         else [s.offset / s.staticStreamBuffer.staticDataSectionSize]) := by
  by_cases heq : s.offset = s.staticStreamBuffer.staticDataSize
  · rw [if_pos heq]
    simp only [stream.prepareOffset, if_pos heq, List.append_nil]
  · rw [if_neg heq]
    have hidx : s.offset / s.staticStreamBuffer.staticDataSectionSize ≤ s.offset :=
      Nat.div_le_self _ _
    have hjK : (s.offset / s.staticStreamBuffer.staticDataSectionSize) *
        s.staticStreamBuffer.staticDataSectionSize ≤ s.offset := Nat.div_mul_le_self _ _
    have hmul : (s.offset / s.staticStreamBuffer.staticDataSectionSize + 1) *
        s.staticStreamBuffer.staticDataSectionSize
        = (s.offset / s.staticStreamBuffer.staticDataSectionSize) *
          s.staticStreamBuffer.staticDataSectionSize +
          s.staticStreamBuffer.staticDataSectionSize := Nat.succ_mul _ _
    have h1 : w64 (s.offset / s.staticStreamBuffer.staticDataSectionSize + 1)
        = s.offset / s.staticStreamBuffer.staticDataSectionSize + 1 := w64_id (by omega)
    have h2 : w64 ((s.offset / s.staticStreamBuffer.staticDataSectionSize + 1) *
        s.staticStreamBuffer.staticDataSectionSize)
        = (s.offset / s.staticStreamBuffer.staticDataSectionSize + 1) *
          s.staticStreamBuffer.staticDataSectionSize := w64_id (by omega)
    simp only [stream.prepareOffset, if_neg heq, h1, h2]
    by_cases hlt : (s.offset / s.staticStreamBuffer.staticDataSectionSize + 1) *
        s.staticStreamBuffer.staticDataSectionSize < s.staticStreamBuffer.staticDataSize
    · simp [if_pos hlt]
    · simp [if_neg hlt]

/-- Claim C5 (amended): for a Read at 0 ≤ offset < dataSize whose section
(of the size newDataSection allocates) is available: if the fetch
completed without error, Read copies exactly
n = min (min (sectionSize - off) (dataSize - offset)) bLen bytes of the
section data starting at off = offset % sectionSize, returns that count,
advances the offset by it, and then updates the LRU at the advanced
offset: with j = (offset + n) / sectionSize it records j and, when
(j+1) * sectionSize < dataSize, also j+1 — and records nothing when
offset + n = dataSize.  (The original claim's LRU updates at the
pre-read index i fail at section boundaries.)  If the fetch completed
with an error, Read returns it with 0 bytes and the stream unchanged. -/
theorem c5_read_spec (s : stream) (bLen : Nat) (ds : dataSection)
    (hss : 0 < s.staticStreamBuffer.staticDataSectionSize)
    (hoff : s.offset < s.staticStreamBuffer.staticDataSize)
    (hbig : s.staticStreamBuffer.staticDataSize +
      s.staticStreamBuffer.staticDataSectionSize < 2 ^ 64)
    (hlook : alookup s.staticStreamBuffer.dataSections
      (s.offset / s.staticStreamBuffer.staticDataSectionSize) = some ds)
    (havail : ds.dataAvailable = true)
    (hlen : ds.externData.length = sectionFetchSize s.staticStreamBuffer.staticDataSize
      s.staticStreamBuffer.staticDataSectionSize
      (s.offset / s.staticStreamBuffer.staticDataSectionSize)) :
    (∀ e, ds.externErr = some e →
      s.Read bLen
        = (ReadResult.err ("read call failed because data section fetch failed: " ++ e),
          s)) ∧
    (ds.externErr = none →
      (s.Read bLen).1
        = ReadResult.ok
            (min (min (s.staticStreamBuffer.staticDataSectionSize -
                s.offset % s.staticStreamBuffer.staticDataSectionSize)
              (s.staticStreamBuffer.staticDataSize - s.offset)) bLen)
            ((ds.externData.drop (s.offset % s.staticStreamBuffer.staticDataSectionSize)).take
              (min (min (s.staticStreamBuffer.staticDataSectionSize -
                  s.offset % s.staticStreamBuffer.staticDataSectionSize)
                (s.staticStreamBuffer.staticDataSize - s.offset)) bLen)) ∧
      (s.Read bLen).2.offset = s.offset +
        min (min (s.staticStreamBuffer.staticDataSectionSize -
            s.offset % s.staticStreamBuffer.staticDataSectionSize)
          (s.staticStreamBuffer.staticDataSize - s.offset)) bLen ∧
      (s.Read bLen).2.staticStreamBuffer = s.staticStreamBuffer ∧
      (s.Read bLen).2.lruUpdates = s.lruUpdates ++
        (if s.offset +
            min (min (s.staticStreamBuffer.staticDataSectionSize -
                s.offset % s.staticStreamBuffer.staticDataSectionSize)
              (s.staticStreamBuffer.staticDataSize - s.offset)) bLen
            = s.staticStreamBuffer.staticDataSize then []
         else if ((s.offset +
              min (min (s.staticStreamBuffer.staticDataSectionSize -
                  s.offset % s.staticStreamBuffer.staticDataSectionSize)
                (s.staticStreamBuffer.staticDataSize - s.offset)) bLen)
              / s.staticStreamBuffer.staticDataSectionSize + 1) *
             s.staticStreamBuffer.staticDataSectionSize <
             s.staticStreamBuffer.staticDataSize then
           [(s.offset +
              min (min (s.staticStreamBuffer.staticDataSectionSize -
                  s.offset % s.staticStreamBuffer.staticDataSectionSize)
                (s.staticStreamBuffer.staticDataSize - s.offset)) bLen)
              / s.staticStreamBuffer.staticDataSectionSize,
            (s.offset +
              min (min (s.staticStreamBuffer.staticDataSectionSize -
                  s.offset % s.staticStreamBuffer.staticDataSectionSize)
                (s.staticStreamBuffer.staticDataSize - s.offset)) bLen)
              / s.staticStreamBuffer.staticDataSectionSize + 1]
         else [(s.offset +
              min (min (s.staticStreamBuffer.staticDataSectionSize -
                  s.offset % s.staticStreamBuffer.staticDataSectionSize)
                (s.staticStreamBuffer.staticDataSize - s.offset)) bLen)
              / s.staticStreamBuffer.staticDataSectionSize])) := by
  have hne : ¬ s.offset = s.staticStreamBuffer.staticDataSize := Nat.ne_of_lt hoff
  have hrem := readBytesRemaining_eq s.staticStreamBuffer.staticDataSize
    s.staticStreamBuffer.staticDataSectionSize s.offset hss hoff hbig
  have hbtr : readBytesToRead s.staticStreamBuffer.staticDataSize
      s.staticStreamBuffer.staticDataSectionSize s.offset bLen
      = min (min (s.staticStreamBuffer.staticDataSectionSize -
          s.offset % s.staticStreamBuffer.staticDataSectionSize)
        (s.staticStreamBuffer.staticDataSize - s.offset)) bLen := by
    simp only [readBytesToRead, hrem]
    split <;> omega
  have hbound := read_slice_bound s.staticStreamBuffer.staticDataSize
    s.staticStreamBuffer.staticDataSectionSize s.offset bLen hss hoff hbig
  have hb : s.offset % s.staticStreamBuffer.staticDataSectionSize +
      readBytesToRead s.staticStreamBuffer.staticDataSize
        s.staticStreamBuffer.staticDataSectionSize s.offset bLen
      ≤ ds.externData.length := by
    rw [hlen]
    exact hbound
  have hfull : min bLen ((ds.externData.drop
      (s.offset % s.staticStreamBuffer.staticDataSectionSize)).take
      (readBytesToRead s.staticStreamBuffer.staticDataSize
        s.staticStreamBuffer.staticDataSectionSize s.offset bLen)).length
      = readBytesToRead s.staticStreamBuffer.staticDataSize
        s.staticStreamBuffer.staticDataSectionSize s.offset bLen := by
    rw [List.length_take, List.length_drop]
    have := readBytesToRead_le_bLen s.staticStreamBuffer.staticDataSize
      s.staticStreamBuffer.staticDataSectionSize s.offset bLen
    omega
  constructor
  · intro e herr
    simp only [stream.Read, if_neg hne, hlook, havail, herr, eq_self_iff_true, if_true]
  · intro herr
    have hok : s.Read bLen
        = (ReadResult.ok
            (readBytesToRead s.staticStreamBuffer.staticDataSize
              s.staticStreamBuffer.staticDataSectionSize s.offset bLen)
            ((ds.externData.drop
              (s.offset % s.staticStreamBuffer.staticDataSectionSize)).take
              (readBytesToRead s.staticStreamBuffer.staticDataSize
                s.staticStreamBuffer.staticDataSectionSize s.offset bLen)),
          stream.prepareOffset
            { s with offset := w64 (s.offset +
                min bLen ((ds.externData.drop
                  (s.offset % s.staticStreamBuffer.staticDataSectionSize)).take
                  (readBytesToRead s.staticStreamBuffer.staticDataSize
                    s.staticStreamBuffer.staticDataSectionSize s.offset bLen)).length) }) := by
      simp only [stream.Read, if_neg hne, hlook, havail, herr, eq_self_iff_true, if_true,
        if_pos hb, hfull]
    have hwoff : w64 (s.offset +
        min bLen ((ds.externData.drop
          (s.offset % s.staticStreamBuffer.staticDataSectionSize)).take
          (readBytesToRead s.staticStreamBuffer.staticDataSize
            s.staticStreamBuffer.staticDataSectionSize s.offset bLen)).length)
        = s.offset + min (min (s.staticStreamBuffer.staticDataSectionSize -
            s.offset % s.staticStreamBuffer.staticDataSectionSize)
          (s.staticStreamBuffer.staticDataSize - s.offset)) bLen := by
      rw [hfull, hbtr]
      simp only [w64]
      omega
    refine ⟨?_, ?_, ?_, ?_⟩
    · rw [hok]
      rw [hbtr]
    · rw [hok]
      dsimp only
      rw [prepareOffset_offset]
      dsimp only
      exact hwoff
    · rw [hok]
      dsimp only
      rw [prepareOffset_buffer]
    · rw [hok]
      dsimp only
      rw [prepareOffset_lruUpdates]
      · dsimp only
        rw [hwoff]
      · dsimp only
        exact hss
      · dsimp only
        rw [hwoff, hbtr] at *
        omega
      · dsimp only
        exact hbig

/-- Stream used for the C5 counterexample and witness: dataSize 4,
section size 2, offset 0, section 0 cached and available with bytes
[7, 7]. -/
def c5Stream : stream :=
  { lruUpdates := [], lruCap := 2, offset := 0,
    staticStreamBuffer :=
      { dataSections :=
          [(0, { dataAvailable := true, externData := [7, 7],
                 externErr := none, refCount := 1 })],
        externRefCount := 1, staticDataSize := 4,
        staticDataSource :=
          { tag := 0, DataSize := 4, ID := 0, RequestSize := 2,
            ReadAt := fun _ _ => ([], none) },
        staticDataSectionSize := 2, staticStreamID := 0 } }

/-- Claim C5 counterexample: a Read of a full section (i = 0, offset 0,
two bytes, dataSize 4) advances the offset to the section boundary, after
which prepareOffset records only index 1 — the LRU is not updated with
i = 0 even though (i+1) * sectionSize = 2 < 4, refuting the claimed
update set {i, i+1}. -/
theorem c5_counterexample :
    (c5Stream.Read 2).1 = ReadResult.ok 2 [7, 7] ∧
    (c5Stream.Read 2).2.lruUpdates = [1] ∧
    (0 + 1) * 2 < 4 ∧
    (0 : Nat) ∉ (c5Stream.Read 2).2.lruUpdates := by
  decide

/-- Witness for C5 (amended): a one-byte read inside section 0 returns
byte [7], advances the offset to 1 and updates the LRU with 0 and 1. -/
theorem c5_read_spec_witness :
    (c5Stream.Read 1).1 = ReadResult.ok 1 [7] ∧
    (c5Stream.Read 1).2.offset = 1 ∧
    (c5Stream.Read 1).2.lruUpdates = [0, 1] := by
  have h := c5_read_spec c5Stream 1
    { dataAvailable := true, externData := [7, 7], externErr := none, refCount := 1 }
    (by decide) (by decide) (by decide) rfl rfl (by decide)
  have h2 := h.2 rfl
  refine ⟨?_, ?_, ?_⟩
  · rw [h2.1]
    decide
  · rw [h2.2.1]
    decide
  · rw [h2.2.2.2]
    decide

/-! ### Claim C7 -/

theorem fillBuf_length (buf src : List Nat) : (fillBuf buf src).length = buf.length := by
  simp only [fillBuf, List.length_append, List.length_take, List.length_drop]
  omega

/-- Claim C7: `newDataSection` allocates a fetch buffer of exactly
sectionSize bytes when (i+1) * sectionSize ≤ dataSize and of exactly
dataSize - i * sectionSize bytes for the final section, issues exactly one
ReadAt against the data source at byte offset i * sectionSize (the single
request described by the returned `FetchReq` and executed by `runFetch`),
and the completed section has the outcome recorded with its completion
channel closed and its buffer length unchanged.  The index hypotheses
state that i is a reachable section index and that the uint64 products do
not wrap. -/
theorem c7_newDataSection_spec (sb : streamBuffer) (i : Nat)
    (hbound : i * sb.staticDataSectionSize ≤ sb.staticDataSize)
    (hbig2 : (i + 1) * sb.staticDataSectionSize < 2 ^ 64)
    (hds : sb.staticDataSize < 2 ^ 64) :
    ((i + 1) * sb.staticDataSectionSize ≤ sb.staticDataSize →
      (sb.newDataSection i).2.2.bufLen = sb.staticDataSectionSize) ∧
    ((i + 1) * sb.staticDataSectionSize > sb.staticDataSize →
      (sb.newDataSection i).2.2.bufLen
        = sb.staticDataSize - i * sb.staticDataSectionSize) ∧
    (sb.newDataSection i).2.2.offset = i * sb.staticDataSectionSize ∧
    (sb.newDataSection i).2.1.externData.length = (sb.newDataSection i).2.2.bufLen ∧
    (sb.newDataSection i).2.1.dataAvailable = false ∧
    (sb.newDataSection i).2.1.externErr = none ∧
    alookup (sb.newDataSection i).1.dataSections i = some (sb.newDataSection i).2.1 ∧
    (∀ src : streamBufferDataSource,
      (runFetch src i sb.staticDataSectionSize (sb.newDataSection i).2.1).dataAvailable
        = true ∧
      (runFetch src i sb.staticDataSectionSize (sb.newDataSection i).2.1).externData.length
        = (sb.newDataSection i).2.2.bufLen ∧
      (runFetch src i sb.staticDataSectionSize (sb.newDataSection i).2.1).externErr
        = (src.ReadAt (sb.newDataSection i).2.2.bufLen
            (sb.newDataSection i).2.2.offset).2.map
            (fun e => "data section fetch failed: " ++ e)) := by
  have hw_i : w64 (i * sb.staticDataSectionSize) = i * sb.staticDataSectionSize :=
    w64_id (by omega)
  have hw_i1 : w64 ((i + 1) * sb.staticDataSectionSize)
      = (i + 1) * sb.staticDataSectionSize := w64_id hbig2
  refine ⟨fun h => ?_, fun h => ?_, ?_, ?_, rfl, rfl, ?_, fun src => ⟨rfl, ?_, ?_⟩⟩
  · simp only [streamBuffer.newDataSection, sectionFetchSize, hw_i1, hw_i]
    rw [if_neg (by omega)]
  · simp only [streamBuffer.newDataSection, sectionFetchSize, hw_i1, hw_i]
    rw [if_pos (by omega)]
    exact sub64_eq hbound hds
  · simp only [streamBuffer.newDataSection, hw_i]
  · simp only [streamBuffer.newDataSection, List.length_replicate]
  · simp only [streamBuffer.newDataSection]
    exact alookup_aset_self _ _ _
  · simp only [runFetch, streamBuffer.newDataSection, fillBuf_length, List.length_replicate]
  · simp only [runFetch, streamBuffer.newDataSection, List.length_replicate, hw_i]

/-- Stream buffer used for the C7 witness: dataSize 10, section size 4. -/
def c7Buf : streamBuffer :=
  { dataSections := [], externRefCount := 1, staticDataSize := 10,
    staticDataSource :=
      { tag := 0, DataSize := 10, ID := 0, RequestSize := 4,
        ReadAt := fun _ _ => ([1, 2], none) },
    staticDataSectionSize := 4, staticStreamID := 0 }

/-- Witness for C7: section 1 (non-final) gets a 4-byte buffer and section
2 (final) gets 10 - 8 = 2 bytes, requested at offset 8. -/
theorem c7_newDataSection_spec_witness :
    (c7Buf.newDataSection 1).2.2.bufLen = 4 ∧
    (c7Buf.newDataSection 2).2.2.bufLen = 2 ∧
    (c7Buf.newDataSection 2).2.2.offset = 8 := by
  have h1 := c7_newDataSection_spec c7Buf 1 (by decide) (by decide) (by decide)
  have h2 := c7_newDataSection_spec c7Buf 2 (by decide) (by decide) (by decide)
  refine ⟨?_, ?_, ?_⟩
  · rw [h1.1 (by decide)]
    rfl
  · rw [h2.2.1 (by decide)]
    rfl
  · rw [h2.2.2.1]
    rfl

/-! ### Claim C6 -/

/-- Claim C6: `callNewStream` with a source whose ID matches an existing
stream buffer silently closes exactly the caller's source object and
increments the existing buffer's externRefCount without installing a new
buffer; with a fresh ID it installs a new buffer with externRefCount 1
and closes nothing; and `managedRemoveStream` on a buffer with
externRefCount 1 removes it from the set and silently closes exactly the
buffer's own data source, while at a higher refcount it only decrements.
Since a removed buffer is gone from the set, the close at refcount zero
happens exactly once per buffer. -/
theorem c6_refcount_spec (sbs : streamBufferSet) (src : streamBufferDataSource)
    (initialOffset : Nat) (buf : streamBuffer) :
    (alookup sbs.streams src.ID = some buf → buf.externRefCount + 1 < 2 ^ 64 →
      (sbs.callNewStream src initialOffset).2.2 = [src.tag] ∧
      alookup (sbs.callNewStream src initialOffset).1.streams src.ID
        = some { buf with externRefCount := buf.externRefCount + 1 } ∧
      (sbs.callNewStream src initialOffset).1.streams.length = sbs.streams.length) ∧
    (alookup sbs.streams src.ID = none →
      (sbs.callNewStream src initialOffset).2.2 = [] ∧
      alookup (sbs.callNewStream src initialOffset).1.streams src.ID
        = some { dataSections := [], externRefCount := 1,
                 staticDataSize := src.DataSize, staticDataSource := src,
                 staticDataSectionSize := src.RequestSize, staticStreamID := src.ID }) ∧
    (alookup sbs.streams buf.staticStreamID = some buf →
      (buf.externRefCount = 1 →
        (sbs.managedRemoveStream buf.staticStreamID).2 = [buf.staticDataSource.tag] ∧
        alookup (sbs.managedRemoveStream buf.staticStreamID).1.streams
          buf.staticStreamID = none) ∧
      (∀ k, buf.externRefCount = k + 2 → k + 2 < 2 ^ 64 →
        (sbs.managedRemoveStream buf.staticStreamID).2 = [] ∧
        alookup (sbs.managedRemoveStream buf.staticStreamID).1.streams
          buf.staticStreamID = some { buf with externRefCount := k + 1 })) := by
  refine ⟨fun hlook hrc => ?_, fun hlook => ?_, fun hlookb => ⟨fun hone => ?_, ?_⟩⟩
  · have hw : w64 (buf.externRefCount + 1) = buf.externRefCount + 1 := w64_id hrc
    refine ⟨?_, ?_, ?_⟩
    · simp only [streamBufferSet.callNewStream, hlook]
    · simp only [streamBufferSet.callNewStream, hlook, hw]
      exact alookup_aset_self _ _ _
    · simp only [streamBufferSet.callNewStream, hlook]
      apply aset_length_of_mem
      rw [hlook]
      rfl
  · have hw : w64 (0 + 1) = 1 := by
      simp [w64]
    refine ⟨?_, ?_⟩
    · simp only [streamBufferSet.callNewStream, hlook]
    · simp only [streamBufferSet.callNewStream, hlook, hw]
      exact alookup_aset_self _ _ _
  · have hsub : sub64 buf.externRefCount 1 = 0 := by
      rw [hone]
      decide
    refine ⟨?_, ?_⟩
    · simp only [streamBufferSet.managedRemoveStream, hlookb, hsub,
        if_neg (show ¬ (0 : Nat) > 0 by decide)]
    · simp only [streamBufferSet.managedRemoveStream, hlookb, hsub,
        if_neg (show ¬ (0 : Nat) > 0 by decide)]
      exact alookup_aerase_self _ _
  · intro k hk hk64
    have hsub : sub64 buf.externRefCount 1 = k + 1 := by
      rw [hk, sub64_eq (by omega) hk64]
      omega
    refine ⟨?_, ?_⟩
    · simp only [streamBufferSet.managedRemoveStream, hlookb, hsub,
        if_pos (Nat.succ_pos k)]
    · simp only [streamBufferSet.managedRemoveStream, hlookb, hsub,
        if_pos (Nat.succ_pos k)]
      exact alookup_aset_self _ _ _

/-- Data source, buffer and set used for the C6 witness. -/
def c6Src1 : streamBufferDataSource :=
  { tag := 1, DataSize := 10, ID := 5, RequestSize := 4,
    ReadAt := fun _ _ => ([], none) }

/-- A second data source object with the same ID as `c6Src1`. -/
def c6Src2 : streamBufferDataSource :=
  { tag := 2, DataSize := 10, ID := 5, RequestSize := 4,
    ReadAt := fun _ _ => ([], none) }

/-- The buffer installed for `c6Src1`. -/
def c6Buf1 : streamBuffer :=
  { dataSections := [], externRefCount := 1, staticDataSize := 10,
    staticDataSource := c6Src1, staticDataSectionSize := 4, staticStreamID := 5 }

/-- A stream buffer set holding exactly `c6Buf1`. -/
def c6Set1 : streamBufferSet := { streams := [(5, c6Buf1)] }

/-- Witness for C6: fresh install closes nothing; a second stream for the
same ID closes the caller's source (tag 2) and bumps the refcount to 2;
removing the last stream closes the buffer's own source (tag 1) and
removes the buffer. -/
theorem c6_refcount_spec_witness :
    (newStreamBufferSet.callNewStream c6Src1 0).2.2 = [] ∧
    (c6Set1.callNewStream c6Src2 0).2.2 = [2] ∧
    alookup (c6Set1.callNewStream c6Src2 0).1.streams 5
      = some { c6Buf1 with externRefCount := 2 } ∧
    (c6Set1.managedRemoveStream 5).2 = [1] ∧
    alookup (c6Set1.managedRemoveStream 5).1.streams 5 = none := by
  have h0 := c6_refcount_spec newStreamBufferSet c6Src1 0 c6Buf1
  have h1 := c6_refcount_spec c6Set1 c6Src2 0 c6Buf1
  refine ⟨(h0.2.1 rfl).1, ?_, ?_, ?_, ?_⟩
  · exact (h1.1 rfl (by decide)).1
  · exact (h1.1 rfl (by decide)).2.1
  · exact ((h1.2.2 rfl).1 rfl).1
  · exact ((h1.2.2 rfl).1 rfl).2

end SiaFork
